import Mathlib

/-
Verification of the highlight-state engine of the algomanim library.

The definitions below are a shallow embedding of
src/algomanim/core/linear_container.py (class LinearContainerStructure)
and of Array.update_value / String.update_value in src/algomanim/algomanim.py.

Modelling choices:
- A Python dict with int keys is an insertion-ordered association list
  (PyDict) with the dict-update operation dictSet.
- A structure instance is the record LCS: the backing data, the three
  highlight maps, the instance color fields, and the visible state of the
  slot renderer (one fill color per container cell, one triple of marker
  colors per cell and side).
- A method that can raise returns a pair (state, Option String): the state
  at the moment of return or raise, and the raised message if any.  In the
  source every raise happens during the initial validation block, before
  any state is touched, so an erroring call returns the input state.
- Reference semantics for the snapshot / transfer functions is modelled
  separately at the end with an explicit heap of dict objects (DictHeap),
  because save_highlights_states returns the dict objects themselves.
-/

namespace Algomanim

/-- Colors are opaque equality-comparable handles; modelled as Nat codes. -/
abbrev Color := Nat

/-- manim color constants used by the source, as distinct codes. -/
def WHITE : Color := 0

def DARK_GRAY : Color := 1

def GRAY : Color := 2

def LIGHT_GRAY : Color := 3

def RED : Color := 4

def BLUE : Color := 5

def GREEN : Color := 6

def BLACK : Color := 7

def PURPLE : Color := 8

def YELLOW_E : Color := 9

def TEAL : Color := 10

/-- The three marker colors of one pointer glyph (left, middle, right). -/
abbrev PTriple := Color × Color × Color

/-- Python dict with Nat keys: insertion-ordered association list. -/
abbrev PyDict (β : Type) := List (Nat × β)

/-- Python dict update d[k] = v: overwrite in place if the key exists
(keeping its position), otherwise append at the end. -/
def dictSet {β : Type} (d : PyDict β) (k : Nat) (v : β) : PyDict β :=
  match d with
  | [] => [(k, v)]
  | (k1, v1) :: rest => if k1 = k then (k, v) :: rest else (k1, v1) :: dictSet rest k v

/-- Python dict lookup: some v if the key is present, none otherwise. -/
def dictGet {β : Type} (d : PyDict β) (k : Nat) : Option β :=
  match d with
  | [] => none
  | (k1, v1) :: rest => if k1 = k then some v1 else dictGet rest k

/-- The loop "for idx in range(n): if f idx is a write: d[idx] = value",
starting from the empty dict. -/
def fillRange {β : Type} (n : Nat) (f : Nat → Option β) : PyDict β :=
  (List.range n).foldl
    (fun d idx =>
      match f idx with
      | some v => dictSet d idx v
      | none => d)
    []

/-- The loop "for idx in range(len(l)): if l[idx] == val: d[idx] = v"
of the value-based highlight methods. -/
def fillOnValue {γ β : Type} [DecidableEq γ] (l : List γ) (val : γ) (v : β) : PyDict β :=
  fillRange l.length (fun idx => if l.get? idx = some val then some v else none)

/-- One structure instance (LinearContainerStructure state plus the visible
colors of its container cells and pointer triangles). -/
structure LCS (α : Type) where
  data : List α
  containersColors : PyDict Color
  topPointersColors : PyDict PTriple
  bottomPointersColors : PyDict PTriple
  fillColor : Color
  bgColor : Color
  color1 : Color
  color2 : Color
  color3 : Color
  color123 : Color
  color12 : Color
  color13 : Color
  color23 : Color
  colorContainersWithValue : Color
  slotFills : List Color
  slotTopMarkers : List PTriple
  slotBotMarkers : List PTriple
  deriving DecidableEq

/-- The all-background marker triple of an instance. -/
def bgTriple {α : Type} (s : LCS α) : PTriple := (s.bgColor, s.bgColor, s.bgColor)

/-- LinearContainerStructure._apply_containers_colors: repaint every
container cell; a cell whose index is a key of the container map is
painted with the stored color when the data is non-empty, with the
default fill color otherwise. -/
def apply_containers_colors {α : Type} (s : LCS α) : LCS α :=
  { s with
    slotFills :=
      (List.range s.slotFills.length).map fun i =>
        match dictGet s.containersColors i with
        | some c => if s.data.isEmpty then s.fillColor else c
        | none => s.fillColor }

/-- Body of LinearContainerStructure._apply_pointers_colors after its
pos validation: pos = 0 selects the top side, otherwise the bottom side. -/
def apply_pointers_colors_core {α : Type} (s : LCS α) (pos : Nat) : LCS α :=
  let colorsDict := if pos = 0 then s.topPointersColors else s.bottomPointersColors
  let markers := if pos = 0 then s.slotTopMarkers else s.slotBotMarkers
  let newMarkers :=
    (List.range markers.length).map fun i =>
      match dictGet colorsDict i with
      | some t => if s.data.isEmpty then bgTriple s else t
      | none => bgTriple s
  if pos = 0 then { s with slotTopMarkers := newMarkers }
  else { s with slotBotMarkers := newMarkers }

/-- LinearContainerStructure._apply_pointers_colors with its validation:
raises ValueError when pos is neither 0 nor 1. -/
def apply_pointers_colors {α : Type} (s : LCS α) (pos : Nat) : LCS α × Option String :=
  if ¬(pos = 0 ∨ pos = 1) then (s, some "pos must be 0 (top) or 1 (bottom)")
  else (apply_pointers_colors_core s pos, none)

/-- LinearContainerStructure.clear_containers_highlights. -/
def clear_containers_highlights {α : Type} (s : LCS α) : LCS α :=
  apply_containers_colors { s with containersColors := [] }

/-- LinearContainerStructure.clear_pointers_highlights. -/
def clear_pointers_highlights {α : Type} (s : LCS α) (pos : Nat) : LCS α × Option String :=
  if ¬(pos = 0 ∨ pos = 1) then (s, some "pos must be 0 (top) or 1 (bottom)")
  else
    let s1 :=
      if pos = 0 then { s with topPointersColors := ([] : PyDict PTriple) }
      else { s with bottomPointersColors := ([] : PyDict PTriple) }
    (apply_pointers_colors_core s1 pos, none)

/-- Per-index decision of the 2-index branch of pointers (source if-chain
over idx, first match wins; chained Python comparisons expanded). -/
def resolve2P (i j : Nat) (c1 c2 bg : Color) (idx : Nat) : Option PTriple :=
  if idx = i ∧ i = j then some (c1, bg, c2)
  else if idx = i then some (bg, c1, bg)
  else if idx = j then some (bg, c2, bg)
  else none

/-- Per-index decision of the 3-index branch of pointers. -/
def resolve3P (i j k : Nat) (c1 c2 c3 bg : Color) (idx : Nat) : Option PTriple :=
  if idx = i ∧ i = j ∧ j = k then some (c1, c2, c3)
  else if idx = i ∧ i = j then some (c1, bg, c2)
  else if idx = i ∧ i = k then some (c1, bg, c3)
  else if idx = k ∧ k = j then some (c2, bg, c3)
  else if idx = i then some (bg, c1, bg)
  else if idx = j then some (bg, c2, bg)
  else if idx = k then some (bg, c3, bg)
  else none

/-- LinearContainerStructure.pointers: validate, wholesale-replace the
selected pointer map, then repaint that side when data exists. -/
def pointers {α : Type} (s : LCS α) (idxList : List Nat) (pos : Nat)
    (c1 c2 c3 : Color) : LCS α × Option String :=
  if ¬(1 ≤ idxList.length ∧ idxList.length ≤ 3) then
    (s, some "idx_list must contain between 1 and 3 indices")
  else if ¬(pos = 0 ∨ pos = 1) then (s, some "pos must be 0 (top) or 1 (bottom)")
  else
    let n := s.slotFills.length
    let newDict : PyDict PTriple :=
      match idxList with
      | [i] => dictSet [] i (s.bgColor, c1, s.bgColor)
      | [i, j] => fillRange n (resolve2P i j c1 c2 s.bgColor)
      | [i, j, k] => fillRange n (resolve3P i j k c1 c2 c3 s.bgColor)
      | _ => []
    let s1 :=
      if pos = 0 then { s with topPointersColors := newDict }
      else { s with bottomPointersColors := newDict }
    if s1.data.isEmpty then (s1, none)
    else (apply_pointers_colors_core s1 pos, none)

/-- LinearContainerStructure.pointers_on_value: validate pos, clear the
selected pointer map, and when data exists fill it with a middle-marker
entry for every index whose value equals val, then repaint. -/
def pointers_on_value {α : Type} [DecidableEq α] (s : LCS α) (val : α) (pos : Nat)
    (color : Option Color) : LCS α × Option String :=
  if ¬(pos = 0 ∨ pos = 1) then (s, some "pos must be 0 (top) or 1 (bottom)")
  else
    let c := color.getD s.colorContainersWithValue
    let s1 :=
      if pos = 0 then { s with topPointersColors := ([] : PyDict PTriple) }
      else { s with bottomPointersColors := ([] : PyDict PTriple) }
    if s1.data.isEmpty then (s1, none)
    else
      let newDict := fillOnValue s1.data val (s1.bgColor, c, s1.bgColor)
      let s2 :=
        if pos = 0 then { s1 with topPointersColors := newDict }
        else { s1 with bottomPointersColors := newDict }
      (apply_pointers_colors_core s2 pos, none)

/-- Per-index decision of the 2-index branch of highlight_containers. -/
def resolve2C (i j : Nat) (c12 c1 c2 : Color) (idx : Nat) : Option Color :=
  if idx = i ∧ i = j then some c12
  else if idx = i then some c1
  else if idx = j then some c2
  else none

/-- Per-index decision of the 3-index branch of highlight_containers. -/
def resolve3C (i j k : Nat) (c123 c12 c13 c23 c1 c2 c3 : Color) (idx : Nat) : Option Color :=
  if idx = i ∧ i = j ∧ j = k then some c123
  else if idx = i ∧ i = j then some c12
  else if idx = i ∧ i = k then some c13
  else if idx = k ∧ k = j then some c23
  else if idx = i then some c1
  else if idx = j then some c2
  else if idx = k then some c3
  else none

/-- LinearContainerStructure.highlight_containers: validate arity, default
the omitted colors from the instance fields, wholesale-replace the
container map, then repaint when data exists. -/
def highlight_containers {α : Type} (s : LCS α) (idxList : List Nat)
    (c1 c2 c3 c123 c12 c13 c23 : Option Color) : LCS α × Option String :=
  if ¬(1 ≤ idxList.length ∧ idxList.length ≤ 3) then
    (s, some "idx_list must contain between 1 and 3 indices")
  else
    let color1 := c1.getD s.color1
    let color2 := c2.getD s.color2
    let color3 := c3.getD s.color3
    let color123 := c123.getD s.color123
    let color12 := c12.getD s.color12
    let color13 := c13.getD s.color13
    let color23 := c23.getD s.color23
    let n := s.slotFills.length
    let newMap : PyDict Color :=
      match idxList with
      | [i] => dictSet [] i color1
      | [i, j] => fillRange n (resolve2C i j color12 color1 color2)
      | [i, j, k] =>
        fillRange n (resolve3C i j k color123 color12 color13 color23 color1 color2 color3)
      | _ => []
    let s1 := { s with containersColors := newMap }
    if s1.data.isEmpty then (s1, none)
    else (apply_containers_colors s1, none)

/-- LinearContainerStructure.highlight_containers_with_value: default the
color, clear the container map, and when data exists fill it with an entry
for every index whose value equals val, then repaint. Never raises. -/
def highlight_containers_with_value {α : Type} [DecidableEq α] (s : LCS α) (val : α)
    (color : Option Color) : LCS α :=
  let c := color.getD s.colorContainersWithValue
  let s1 := { s with containersColors := ([] : PyDict Color) }
  if s1.data.isEmpty then s1
  else
    let newMap := fillOnValue s1.data val c
    apply_containers_colors { s1 with containersColors := newMap }

/-- The dict returned by LinearContainerStructure._save_highlights_states
(the three current maps; in the source these are the dict objects
themselves, see the reference-level model below). -/
structure HighlightStatus where
  containersColors : PyDict Color
  topPointersColors : PyDict PTriple
  bottomPointersColors : PyDict PTriple
  deriving DecidableEq

/-- LinearContainerStructure._save_highlights_states, value level. -/
def save_highlights_states {α : Type} (s : LCS α) : HighlightStatus :=
  ⟨s.containersColors, s.topPointersColors, s.bottomPointersColors⟩

/-- LinearContainerStructure._preserve_highlights_states: install the saved
maps on the new group and repaint containers and both pointer sides. -/
def preserve_highlights_states {α : Type} (newGroup : LCS α) (status : HighlightStatus) :
    LCS α :=
  let s := { newGroup with
    containersColors := status.containersColors
    topPointersColors := status.topPointersColors
    bottomPointersColors := status.bottomPointersColors }
  let s1 := apply_containers_colors s
  let s2 := apply_pointers_colors_core s1 0
  apply_pointers_colors_core s2 1

/-- Freshly constructed structure instance (Array or String constructor):
data copied, empty highlight maps, default highlight colors from
LinearContainerStructure, one cell per element painted with the fill
color and all pointer triangles painted with the background color.
An empty-data instance has no enumerable cells and no pointer groups. -/
def mkStructure {α : Type} (dat : List α) (fill bg : Color) : LCS α :=
  { data := dat
    containersColors := []
    topPointersColors := []
    bottomPointersColors := []
    fillColor := fill
    bgColor := bg
    color1 := RED
    color2 := BLUE
    color3 := GREEN
    color123 := BLACK
    color12 := PURPLE
    color13 := YELLOW_E
    color23 := TEAL
    colorContainersWithValue := BLACK
    slotFills := List.replicate dat.length fill
    slotTopMarkers := List.replicate dat.length (bg, bg, bg)
    slotBotMarkers := List.replicate dat.length (bg, bg, bg) }

/-- Array.update_value: return unchanged when both the current data and the
new value are empty; otherwise save the highlight maps, build a new Array
(fill color is the Array constructor default DARK_GRAY, background color
is inherited), install and repaint the saved maps on it, and take over its
data and visible cells. The three highlight maps of the caller are kept. -/
def update_value (s : LCS Int) (newValue : List Int) : LCS Int :=
  if s.data.isEmpty ∧ newValue.isEmpty then s
  else
    let status := save_highlights_states s
    let newGroup := mkStructure newValue DARK_GRAY s.bgColor
    let newGroup2 := preserve_highlights_states newGroup status
    { s with
      data := newValue
      slotFills := newGroup2.slotFills
      slotTopMarkers := newGroup2.slotTopMarkers
      slotBotMarkers := newGroup2.slotBotMarkers }

/-- String.update_value: same control flow as Array.update_value, but the
new String instance inherits the fill color as well. -/
def update_value_string (s : LCS Char) (newValue : List Char) : LCS Char :=
  if s.data.isEmpty ∧ newValue.isEmpty then s
  else
    let status := save_highlights_states s
    let newGroup := mkStructure newValue s.fillColor s.bgColor
    let newGroup2 := preserve_highlights_states newGroup status
    { s with
      data := newValue
      slotFills := newGroup2.slotFills
      slotTopMarkers := newGroup2.slotTopMarkers
      slotBotMarkers := newGroup2.slotBotMarkers }

/- ------------------------------------------------------------------ -/
/- Helper lemmas about the dict model and the paint pass.              -/
/- ------------------------------------------------------------------ -/

theorem dictGet_dictSet {β : Type} (d : PyDict β) (k : Nat) (v : β) (p : Nat) :
    dictGet (dictSet d k v) p = if k = p then some v else dictGet d p := by
  induction d with
  | nil => simp [dictSet, dictGet]
  | cons hd tl ih =>
    obtain ⟨k1, v1⟩ := hd
    by_cases h1 : k1 = k
    · subst h1
      simp only [dictSet, if_pos rfl, dictGet]
      by_cases h2 : k1 = p <;> simp [h2]
    · simp only [dictSet, if_neg h1, dictGet]
      by_cases h2 : k1 = p
      · subst h2
        have : ¬ k = k1 := fun h => h1 h.symm
        simp [this]
      · simp [h2, ih]

theorem dictGet_fillRange {β : Type} (f : Nat → Option β) (p : Nat) (n : Nat) :
    dictGet (fillRange n f) p = if p < n then f p else none := by
  induction n with
  | zero => simp [fillRange, dictGet]
  | succ n ih =>
    unfold fillRange at ih ⊢
    rw [List.range_succ, List.foldl_append, List.foldl_cons, List.foldl_nil]
    cases hf : f n with
    | none =>
      dsimp only
      rw [ih]
      by_cases h2 : p < n
      · rw [if_pos h2, if_pos (by omega)]
      · by_cases h3 : p < n + 1
        · have hpn : p = n := by omega
          subst hpn
          rw [if_neg h2, if_pos h3, hf]
        · rw [if_neg h2, if_neg h3]
    | some v =>
      dsimp only
      rw [dictGet_dictSet, ih]
      by_cases hp : n = p
      · subst hp
        rw [if_pos rfl, if_pos (by omega), hf]
      · rw [if_neg hp]
        by_cases h2 : p < n
        · rw [if_pos h2, if_pos (by omega)]
        · rw [if_neg h2, if_neg (by omega)]

theorem dictGet_fillOnValue {γ β : Type} [DecidableEq γ] (l : List γ) (val : γ) (v : β)
    (p : Nat) :
    dictGet (fillOnValue l val v) p = if l.get? p = some val then some v else none := by
  unfold fillOnValue
  rw [dictGet_fillRange]
  by_cases hp : p < l.length
  · simp [hp]
  · have hnone : l.get? p = none := List.get?_eq_none.mpr (le_of_not_lt hp)
    rw [if_neg hp, hnone]
    simp

theorem apply_containers_colors_containersColors {α : Type} (s : LCS α) :
    (apply_containers_colors s).containersColors = s.containersColors := rfl

theorem apply_containers_colors_data {α : Type} (s : LCS α) :
    (apply_containers_colors s).data = s.data := rfl

theorem apply_containers_colors_slotFills_get {α : Type} (s : LCS α) (idx : Nat)
    (h : idx < s.slotFills.length) :
    (apply_containers_colors s).slotFills.get? idx =
      some (match dictGet s.containersColors idx with
            | some c => if s.data.isEmpty then s.fillColor else c
            | none => s.fillColor) := by
  have hr : (List.range s.slotFills.length)[idx]? = some idx := List.getElem?_range h
  simp [apply_containers_colors, List.getElem?_map, hr]

theorem apply_pointers_colors_core_maps {α : Type} (s : LCS α) (pos : Nat) :
    (apply_pointers_colors_core s pos).containersColors = s.containersColors
    ∧ (apply_pointers_colors_core s pos).topPointersColors = s.topPointersColors
    ∧ (apply_pointers_colors_core s pos).bottomPointersColors = s.bottomPointersColors
    ∧ (apply_pointers_colors_core s pos).data = s.data
    ∧ (apply_pointers_colors_core s pos).slotFills = s.slotFills := by
  unfold apply_pointers_colors_core
  by_cases h : pos = 0 <;> simp [h]

theorem apply_pointers_colors_core_top_get (s : LCS Int) (idx : Nat)
    (h : idx < s.slotTopMarkers.length) :
    (apply_pointers_colors_core s 0).slotTopMarkers.get? idx =
      some (match dictGet s.topPointersColors idx with
            | some t => if s.data.isEmpty then bgTriple s else t
            | none => bgTriple s) := by
  have hr : (List.range s.slotTopMarkers.length)[idx]? = some idx := List.getElem?_range h
  simp [apply_pointers_colors_core, List.getElem?_map, hr]

theorem apply_pointers_colors_core_bot_get (s : LCS Int) (idx : Nat)
    (h : idx < s.slotBotMarkers.length) :
    (apply_pointers_colors_core s 1).slotBotMarkers.get? idx =
      some (match dictGet s.bottomPointersColors idx with
            | some t => if s.data.isEmpty then bgTriple s else t
            | none => bgTriple s) := by
  have hr : (List.range s.slotBotMarkers.length)[idx]? = some idx := List.getElem?_range h
  simp [apply_pointers_colors_core, List.getElem?_map, hr]

theorem highlight_containers_frame (s : LCS Int) (idxList : List Nat)
    (o1 o2 o3 o123 o12 o13 o23 : Option Color) :
    (highlight_containers s idxList o1 o2 o3 o123 o12 o13 o23).1.data = s.data
    ∧ (highlight_containers s idxList o1 o2 o3 o123 o12 o13 o23).1.bgColor = s.bgColor
    ∧ (highlight_containers s idxList o1 o2 o3 o123 o12 o13 o23).1.fillColor = s.fillColor
    ∧ (highlight_containers s idxList o1 o2 o3 o123 o12 o13 o23).1.topPointersColors
        = s.topPointersColors
    ∧ (highlight_containers s idxList o1 o2 o3 o123 o12 o13 o23).1.bottomPointersColors
        = s.bottomPointersColors
    ∧ (highlight_containers s idxList o1 o2 o3 o123 o12 o13 o23).1.slotFills.length
        = s.slotFills.length := by
  unfold highlight_containers
  by_cases ha : ¬(1 ≤ idxList.length ∧ idxList.length ≤ 3)
  · simp [ha]
  · rw [if_neg ha]
    by_cases hed : s.data.isEmpty <;>
      simp [hed, apply_containers_colors]

theorem highlight_containers_map_1 (s : LCS Int) (i : Nat)
    (o1 o2 o3 o123 o12 o13 o23 : Option Color) :
    (highlight_containers s [i] o1 o2 o3 o123 o12 o13 o23).1.containersColors =
      dictSet [] i (o1.getD s.color1) := by
  unfold highlight_containers
  rw [if_neg (by simp)]
  by_cases hed : s.data.isEmpty <;> simp [hed, apply_containers_colors]

theorem highlight_containers_map_2 (s : LCS Int) (i j : Nat)
    (o1 o2 o3 o123 o12 o13 o23 : Option Color) :
    (highlight_containers s [i, j] o1 o2 o3 o123 o12 o13 o23).1.containersColors =
      fillRange s.slotFills.length
        (resolve2C i j (o12.getD s.color12) (o1.getD s.color1) (o2.getD s.color2)) := by
  unfold highlight_containers
  rw [if_neg (by simp)]
  by_cases hed : s.data.isEmpty <;> simp [hed, apply_containers_colors]

theorem highlight_containers_map_3 (s : LCS Int) (i j k : Nat)
    (o1 o2 o3 o123 o12 o13 o23 : Option Color) :
    (highlight_containers s [i, j, k] o1 o2 o3 o123 o12 o13 o23).1.containersColors =
      fillRange s.slotFills.length
        (resolve3C i j k (o123.getD s.color123) (o12.getD s.color12) (o13.getD s.color13)
          (o23.getD s.color23) (o1.getD s.color1) (o2.getD s.color2) (o3.getD s.color3)) := by
  unfold highlight_containers
  rw [if_neg (by simp)]
  by_cases hed : s.data.isEmpty <;> simp [hed, apply_containers_colors]

theorem pointers_frame (s : LCS Int) (idxList : List Nat) (pos : Nat) (c1 c2 c3 : Color) :
    (pointers s idxList pos c1 c2 c3).1.data = s.data
    ∧ (pointers s idxList pos c1 c2 c3).1.bgColor = s.bgColor
    ∧ (pointers s idxList pos c1 c2 c3).1.fillColor = s.fillColor
    ∧ (pointers s idxList pos c1 c2 c3).1.containersColors = s.containersColors
    ∧ (pointers s idxList pos c1 c2 c3).1.slotFills = s.slotFills := by
  unfold pointers
  by_cases ha : ¬(1 ≤ idxList.length ∧ idxList.length ≤ 3)
  · simp [ha]
  · rw [if_neg ha]
    by_cases hp : ¬(pos = 0 ∨ pos = 1)
    · simp [hp]
    · rw [if_neg hp]
      rcases not_not.mp hp with h0 | h0 <;> subst h0 <;>
        by_cases hed : s.data.isEmpty <;>
          simp [hed, apply_pointers_colors_core]

theorem pointers_top_map_1 (s : LCS Int) (i : Nat) (c1 c2 c3 : Color) :
    (pointers s [i] 0 c1 c2 c3).1.topPointersColors =
      dictSet [] i (s.bgColor, c1, s.bgColor) := by
  unfold pointers
  rw [if_neg (by simp), if_neg (by simp)]
  by_cases hed : s.data.isEmpty <;> simp [hed, apply_pointers_colors_core]

theorem pointers_top_map_2 (s : LCS Int) (i j : Nat) (c1 c2 c3 : Color) :
    (pointers s [i, j] 0 c1 c2 c3).1.topPointersColors =
      fillRange s.slotFills.length (resolve2P i j c1 c2 s.bgColor) := by
  unfold pointers
  rw [if_neg (by simp), if_neg (by simp)]
  by_cases hed : s.data.isEmpty <;> simp [hed, apply_pointers_colors_core]

theorem pointers_top_map_3 (s : LCS Int) (i j k : Nat) (c1 c2 c3 : Color) :
    (pointers s [i, j, k] 0 c1 c2 c3).1.topPointersColors =
      fillRange s.slotFills.length (resolve3P i j k c1 c2 c3 s.bgColor) := by
  unfold pointers
  rw [if_neg (by simp), if_neg (by simp)]
  by_cases hed : s.data.isEmpty <;> simp [hed, apply_pointers_colors_core]

theorem pointers_bot_map_1 (s : LCS Int) (i : Nat) (c1 c2 c3 : Color) :
    (pointers s [i] 1 c1 c2 c3).1.bottomPointersColors =
      dictSet [] i (s.bgColor, c1, s.bgColor) := by
  unfold pointers
  rw [if_neg (by simp), if_neg (by simp)]
  by_cases hed : s.data.isEmpty <;> simp [hed, apply_pointers_colors_core]

theorem pointers_bot_map_2 (s : LCS Int) (i j : Nat) (c1 c2 c3 : Color) :
    (pointers s [i, j] 1 c1 c2 c3).1.bottomPointersColors =
      fillRange s.slotFills.length (resolve2P i j c1 c2 s.bgColor) := by
  unfold pointers
  rw [if_neg (by simp), if_neg (by simp)]
  by_cases hed : s.data.isEmpty <;> simp [hed, apply_pointers_colors_core]

theorem pointers_bot_map_3 (s : LCS Int) (i j k : Nat) (c1 c2 c3 : Color) :
    (pointers s [i, j, k] 1 c1 c2 c3).1.bottomPointersColors =
      fillRange s.slotFills.length (resolve3P i j k c1 c2 c3 s.bgColor) := by
  unfold pointers
  rw [if_neg (by simp), if_neg (by simp)]
  by_cases hed : s.data.isEmpty <;> simp [hed, apply_pointers_colors_core]

theorem highlight_containers_with_value_frame (s : LCS Int) (val : Int) (oc : Option Color) :
    (highlight_containers_with_value s val oc).data = s.data
    ∧ (highlight_containers_with_value s val oc).bgColor = s.bgColor
    ∧ (highlight_containers_with_value s val oc).fillColor = s.fillColor
    ∧ (highlight_containers_with_value s val oc).colorContainersWithValue
        = s.colorContainersWithValue
    ∧ (highlight_containers_with_value s val oc).topPointersColors = s.topPointersColors
    ∧ (highlight_containers_with_value s val oc).bottomPointersColors
        = s.bottomPointersColors := by
  unfold highlight_containers_with_value
  by_cases hed : s.data.isEmpty <;> simp [hed, apply_containers_colors]

theorem highlight_containers_with_value_map (s : LCS Int) (val : Int) (oc : Option Color) :
    (highlight_containers_with_value s val oc).containersColors =
      if s.data.isEmpty then []
      else fillOnValue s.data val (oc.getD s.colorContainersWithValue) := by
  unfold highlight_containers_with_value
  by_cases hed : s.data.isEmpty <;> simp [hed, apply_containers_colors]

theorem pointers_on_value_frame (s : LCS Int) (val : Int) (pos : Nat) (oc : Option Color) :
    (pointers_on_value s val pos oc).1.data = s.data
    ∧ (pointers_on_value s val pos oc).1.bgColor = s.bgColor
    ∧ (pointers_on_value s val pos oc).1.containersColors = s.containersColors := by
  unfold pointers_on_value
  by_cases hp : ¬(pos = 0 ∨ pos = 1)
  · simp [hp]
  · rw [if_neg hp]
    rcases not_not.mp hp with h0 | h0 <;> subst h0 <;>
      by_cases hed : s.data.isEmpty <;>
        simp [hed, apply_pointers_colors_core]

theorem pointers_on_value_top_map (s : LCS Int) (val : Int) (oc : Option Color) :
    (pointers_on_value s val 0 oc).2 = none
    ∧ (pointers_on_value s val 0 oc).1.topPointersColors =
        (if s.data.isEmpty then []
         else fillOnValue s.data val (s.bgColor, oc.getD s.colorContainersWithValue, s.bgColor)) := by
  unfold pointers_on_value
  rw [if_neg (by simp)]
  by_cases hed : s.data.isEmpty <;> simp [hed, apply_pointers_colors_core]

theorem pointers_on_value_bot_map (s : LCS Int) (val : Int) (oc : Option Color) :
    (pointers_on_value s val 1 oc).2 = none
    ∧ (pointers_on_value s val 1 oc).1.bottomPointersColors =
        (if s.data.isEmpty then []
         else fillOnValue s.data val (s.bgColor, oc.getD s.colorContainersWithValue, s.bgColor)) := by
  unfold pointers_on_value
  rw [if_neg (by simp)]
  by_cases hed : s.data.isEmpty <;> simp [hed, apply_pointers_colors_core]

theorem isEmpty_false_of_length {γ : Type} (l : List γ) (n : Nat) (h : l.length = n + 1) :
    l.isEmpty = false := by
  cases l with
  | nil => simp at h
  | cons a t => rfl

theorem update_value_result (s : LCS Int) (newValue : List Int)
    (h : ¬(s.data.isEmpty ∧ newValue.isEmpty)) :
    update_value s newValue =
      { s with
        data := newValue
        slotFills :=
          (List.range newValue.length).map fun i =>
            match dictGet s.containersColors i with
            | some c => if newValue.isEmpty then DARK_GRAY else c
            | none => DARK_GRAY
        slotTopMarkers :=
          (List.range newValue.length).map fun i =>
            match dictGet s.topPointersColors i with
            | some t => if newValue.isEmpty then (s.bgColor, s.bgColor, s.bgColor) else t
            | none => (s.bgColor, s.bgColor, s.bgColor)
        slotBotMarkers :=
          (List.range newValue.length).map fun i =>
            match dictGet s.bottomPointersColors i with
            | some t => if newValue.isEmpty then (s.bgColor, s.bgColor, s.bgColor) else t
            | none => (s.bgColor, s.bgColor, s.bgColor) } := by
  unfold update_value
  rw [if_neg h]
  simp only [save_highlights_states, preserve_highlights_states, mkStructure,
    apply_containers_colors, apply_pointers_colors_core, bgTriple, List.length_replicate,
    List.length_map, List.length_range]
  norm_num

/- ------------------------------------------------------------------ -/
/- Claim theorems.                                                     -/
/- ------------------------------------------------------------------ -/

/-- C7: for every store state and slot index in range, the repaint pass sets the
container cell to its mapped color exactly when the index is a key of the container
map and the live data is non-empty, and to the default fill color otherwise;
symmetrically per pointer side the three markers are set to the mapped tuple exactly
when the index is a key of that pointer map and the data is non-empty, and to all
background otherwise; and the repaint of a valid pointer side never raises,
regardless of store contents. -/
theorem c7_paint_semantics (s : LCS Int) (idx : Nat) (pos : Nat)
    (hpos : pos = 0 ∨ pos = 1) :
    (idx < s.slotFills.length →
      (apply_containers_colors s).slotFills.get? idx =
        some (if (dictGet s.containersColors idx).isSome ∧ ¬s.data.isEmpty then
                (dictGet s.containersColors idx).getD s.fillColor
              else s.fillColor))
    ∧ (idx < s.slotTopMarkers.length →
      (apply_pointers_colors_core s 0).slotTopMarkers.get? idx =
        some (if (dictGet s.topPointersColors idx).isSome ∧ ¬s.data.isEmpty then
                (dictGet s.topPointersColors idx).getD (bgTriple s)
              else bgTriple s))
    ∧ (idx < s.slotBotMarkers.length →
      (apply_pointers_colors_core s 1).slotBotMarkers.get? idx =
        some (if (dictGet s.bottomPointersColors idx).isSome ∧ ¬s.data.isEmpty then
                (dictGet s.bottomPointersColors idx).getD (bgTriple s)
              else bgTriple s))
    ∧ (apply_pointers_colors s pos).2 = none := by
  refine ⟨fun h => ?_, fun h => ?_, fun h => ?_, ?_⟩
  · rw [apply_containers_colors_slotFills_get s idx h]
    cases hd : dictGet s.containersColors idx <;>
      cases he : s.data.isEmpty <;> simp [hd, he]
  · rw [apply_pointers_colors_core_top_get s idx h]
    cases hd : dictGet s.topPointersColors idx <;>
      cases he : s.data.isEmpty <;> simp [hd, he]
  · rw [apply_pointers_colors_core_bot_get s idx h]
    cases hd : dictGet s.bottomPointersColors idx <;>
      cases he : s.data.isEmpty <;> simp [hd, he]
  · rcases hpos with h | h <;> simp [apply_pointers_colors, h]

/-- Witness for C7 at a one-element array with an empty store: the single cell is
repainted with the default fill color. -/
theorem c7_paint_semantics_witness :
    0 < (mkStructure [(3 : Int)] GRAY DARK_GRAY).slotFills.length
    ∧ (apply_containers_colors (mkStructure [(3 : Int)] GRAY DARK_GRAY)).slotFills.get? 0
        = some GRAY := by
  refine ⟨by decide, ?_⟩
  have h :=
    (c7_paint_semantics (mkStructure [(3 : Int)] GRAY DARK_GRAY) 0 0 (Or.inl rfl)).1
      (by decide)
  rw [h]
  decide

/-- C10: when the current backing data is empty and the new sequence is empty,
update_value (Array and String alike) returns immediately and the whole instance
state, highlight maps and visible slot colors included, is exactly as before. -/
theorem c10_update_value_empty_noop (s : LCS Int) (t : LCS Char)
    (hs : s.data = []) (ht : t.data = []) :
    update_value s [] = s ∧ update_value_string t [] = t := by
  constructor
  · unfold update_value
    rw [if_pos ⟨by rw [hs]; rfl, rfl⟩]
  · unfold update_value_string
    rw [if_pos ⟨by rw [ht]; rfl, rfl⟩]

/-- Witness for C10 on concrete empty instances. -/
theorem c10_update_value_empty_noop_witness :
    update_value (mkStructure ([] : List Int) GRAY DARK_GRAY) []
        = mkStructure ([] : List Int) GRAY DARK_GRAY
    ∧ update_value_string (mkStructure ([] : List Char) GRAY DARK_GRAY) []
        = mkStructure ([] : List Char) GRAY DARK_GRAY :=
  c10_update_value_empty_noop _ _ rfl rfl

/-- C6: an index list of length 0 or at least 4 makes both pointers and
highlight_containers raise the arity error with the instance state exactly as
before the call, and a side value outside 0 and 1 makes pointers (with a valid
index list) raise the side error, again with the state exactly as before. -/
theorem c6_validation_atomicity (s : LCS Int) (idxList : List Nat) (pos : Nat)
    (c1 c2 c3 : Color) (o1 o2 o3 o123 o12 o13 o23 : Option Color) :
    (idxList.length = 0 ∨ 4 ≤ idxList.length →
      pointers s idxList pos c1 c2 c3 =
          (s, some "idx_list must contain between 1 and 3 indices")
      ∧ highlight_containers s idxList o1 o2 o3 o123 o12 o13 o23 =
          (s, some "idx_list must contain between 1 and 3 indices"))
    ∧ (1 ≤ idxList.length ∧ idxList.length ≤ 3 → ¬(pos = 0 ∨ pos = 1) →
      pointers s idxList pos c1 c2 c3 = (s, some "pos must be 0 (top) or 1 (bottom)")) := by
  constructor
  · intro h
    have harity : ¬(1 ≤ idxList.length ∧ idxList.length ≤ 3) := by omega
    constructor
    · unfold pointers
      rw [if_pos harity]
    · unfold highlight_containers
      rw [if_pos harity]
  · intro h hpos
    unfold pointers
    rw [if_neg (not_not_intro h), if_pos hpos]

/-- Witness for C6: an empty index list and an invalid side on a concrete array. -/
theorem c6_validation_atomicity_witness :
    pointers (mkStructure [(1 : Int), 2] GRAY DARK_GRAY) [] 0 RED BLUE GREEN
        = (mkStructure [(1 : Int), 2] GRAY DARK_GRAY,
            some "idx_list must contain between 1 and 3 indices")
    ∧ highlight_containers (mkStructure [(1 : Int), 2] GRAY DARK_GRAY) []
          none none none none none none none
        = (mkStructure [(1 : Int), 2] GRAY DARK_GRAY,
            some "idx_list must contain between 1 and 3 indices")
    ∧ pointers (mkStructure [(1 : Int), 2] GRAY DARK_GRAY) [0] 5 RED BLUE GREEN
        = (mkStructure [(1 : Int), 2] GRAY DARK_GRAY,
            some "pos must be 0 (top) or 1 (bottom)") := by
  have h1 := c6_validation_atomicity (mkStructure [(1 : Int), 2] GRAY DARK_GRAY) [] 0
    RED BLUE GREEN none none none none none none none
  have h2 := c6_validation_atomicity (mkStructure [(1 : Int), 2] GRAY DARK_GRAY) [0] 5
    RED BLUE GREEN none none none none none none none
  exact ⟨(h1.1 (by simp)).1, (h1.1 (by simp)).2, h2.2 (by simp) (by omega)⟩

set_option maxHeartbeats 1600000

/-- C4: in container mode the resulting map entry for every slot position p follows
the precedence table, first matching row winning (p=i=j=k gives color123, p=i=j gives
color12, p=i=k gives color13, p=j=k gives color23, then the single rows, otherwise no
entry); the 2- and 1-index cases are the same table restricted to their rows; and on a
5-slot structure highlight_containers [2,2,2] with color123 = K yields exactly the
map with the single entry 2 maps to K. -/
theorem c4_container_collision_precedence (s : LCS Int) (i j k p : Nat)
    (hp : p < s.slotFills.length) (c1 c2 c3 c123 c12 c13 c23 : Color)
    (d5 : List Int) (h5 : d5.length = 5) (fill bg R G B K : Color) :
    dictGet ((highlight_containers s [i, j, k] (some c1) (some c2) (some c3) (some c123)
        (some c12) (some c13) (some c23)).1.containersColors) p =
      (if p = i ∧ p = j ∧ p = k then some c123
       else if p = i ∧ p = j then some c12
       else if p = i ∧ p = k then some c13
       else if p = j ∧ p = k then some c23
       else if p = i then some c1
       else if p = j then some c2
       else if p = k then some c3
       else none)
    ∧ dictGet ((highlight_containers s [i, j] (some c1) (some c2) (some c3) (some c123)
        (some c12) (some c13) (some c23)).1.containersColors) p =
      (if p = i ∧ p = j then some c12
       else if p = i then some c1
       else if p = j then some c2
       else none)
    ∧ dictGet ((highlight_containers s [i] (some c1) (some c2) (some c3) (some c123)
        (some c12) (some c13) (some c23)).1.containersColors) p =
      (if p = i then some c1 else none)
    ∧ (highlight_containers (mkStructure d5 fill bg) [2, 2, 2] (some R) (some G) (some B)
        (some K) none none none).1.containersColors = [(2, K)] := by
  refine ⟨?_, ?_, ?_, ?_⟩
  · rw [highlight_containers_map_3, dictGet_fillRange, if_pos hp]
    simp only [Option.getD_some]
    unfold resolve3C
    split_ifs <;> first | rfl | omega
  · rw [highlight_containers_map_2, dictGet_fillRange, if_pos hp]
    simp only [Option.getD_some]
    unfold resolve2C
    split_ifs <;> first | rfl | omega
  · rw [highlight_containers_map_1, dictGet_dictSet]
    simp only [Option.getD_some, dictGet]
    by_cases h : p = i
    · simp [h]
    · have h2 : ¬i = p := fun hh => h hh.symm
      simp [h, h2]
  · rw [highlight_containers_map_3]
    simp only [mkStructure, List.length_replicate, h5, Option.getD_some, Option.getD_none]
    rfl

/-- Witness for C4: on a concrete 5-slot array, slot 2 resolves to color123 and slot 0
gets no entry. -/
theorem c4_container_collision_precedence_witness :
    2 < (mkStructure ([10, 20, 30, 40, 50] : List Int) GRAY DARK_GRAY).slotFills.length
    ∧ dictGet ((highlight_containers (mkStructure ([10, 20, 30, 40, 50] : List Int)
        GRAY DARK_GRAY) [2, 2, 2] (some 11) (some 12) (some 13) (some 14) (some 15)
        (some 16) (some 17)).1.containersColors) 2 = some 14 := by
  refine ⟨by decide, ?_⟩
  have h :=
    (c4_container_collision_precedence
      (mkStructure ([10, 20, 30, 40, 50] : List Int) GRAY DARK_GRAY) 2 2 2 2 (by decide)
      11 12 13 14 15 16 17 [1, 2, 3, 4, 5] (by decide) 0 1 2 3 4 5).1
  rw [h]
  decide

/-- C5: in pointer mode a slot where all three cursors coincide gets the tuple
(color1, color2, color3); a slot where exactly two cursors collide gets the two
colliding colors in the outer markers with background in the middle; a slot holding a
single cursor gets (background, colorX, background); a slot matching no cursor gets no
entry; and setPointers [1,3,1] on the top side with colors R G B yields exactly the
map with 1 maps to (R, background, B) and 3 maps to (background, G, background). -/
theorem c5_pointer_marker_tuples (s : LCS Int) (i j k p : Nat)
    (hp : p < s.slotFills.length) (c1 c2 c3 : Color)
    (d5 : List Int) (h5 : d5.length = 5) (fill bg R G B : Color) :
    dictGet ((pointers s [i, j, k] 0 c1 c2 c3).1.topPointersColors) p =
      (if p = i ∧ p = j ∧ p = k then some (c1, c2, c3)
       else if p = i ∧ p = j then some (c1, s.bgColor, c2)
       else if p = i ∧ p = k then some (c1, s.bgColor, c3)
       else if p = j ∧ p = k then some (c2, s.bgColor, c3)
       else if p = i then some (s.bgColor, c1, s.bgColor)
       else if p = j then some (s.bgColor, c2, s.bgColor)
       else if p = k then some (s.bgColor, c3, s.bgColor)
       else none)
    ∧ dictGet ((pointers s [i, j] 1 c1 c2 c3).1.bottomPointersColors) p =
      (if p = i ∧ p = j then some (c1, s.bgColor, c2)
       else if p = i then some (s.bgColor, c1, s.bgColor)
       else if p = j then some (s.bgColor, c2, s.bgColor)
       else none)
    ∧ dictGet ((pointers s [i] 0 c1 c2 c3).1.topPointersColors) p =
      (if p = i then some (s.bgColor, c1, s.bgColor) else none)
    ∧ (pointers (mkStructure d5 fill bg) [1, 3, 1] 0 R G B).1.topPointersColors =
      [(1, (R, bg, B)), (3, (bg, G, bg))] := by
  refine ⟨?_, ?_, ?_, ?_⟩
  · rw [pointers_top_map_3, dictGet_fillRange, if_pos hp]
    unfold resolve3P
    split_ifs <;> first | rfl | omega
  · rw [pointers_bot_map_2, dictGet_fillRange, if_pos hp]
    unfold resolve2P
    split_ifs <;> first | rfl | omega
  · rw [pointers_top_map_1, dictGet_dictSet]
    simp only [dictGet]
    by_cases h : p = i
    · simp [h]
    · have h2 : ¬i = p := fun hh => h hh.symm
      simp [h, h2]
  · rw [pointers_top_map_3]
    simp only [mkStructure, List.length_replicate, h5]
    rfl

/-- Witness for C5: on a concrete 5-slot array, setPointers [1,3,1] top places the
colliding pair in the outer markers of slot 1. -/
theorem c5_pointer_marker_tuples_witness :
    1 < (mkStructure ([10, 20, 30, 40, 50] : List Int) GRAY DARK_GRAY).slotFills.length
    ∧ dictGet ((pointers (mkStructure ([10, 20, 30, 40, 50] : List Int) GRAY DARK_GRAY)
        [1, 3, 1] 0 RED GREEN BLUE).1.topPointersColors) 1 = some (RED, DARK_GRAY, BLUE) := by
  refine ⟨by decide, ?_⟩
  have h :=
    (c5_pointer_marker_tuples (mkStructure ([10, 20, 30, 40, 50] : List Int) GRAY DARK_GRAY)
      1 3 1 1 (by decide) RED GREEN BLUE [1, 2, 3, 4, 5] (by decide) 0 1 2 3 4).1
  rw [h]
  decide

/-- C3 counterexample: on a 3-slot array, highlight_containers with the 2-index list
[5, 6] succeeds (no error raised) yet the resulting container map has no entry for
input index 5, because the 2- and 3-index fill loops run over the existing slots
only. -/
theorem c3_counterexample :
    (highlight_containers (mkStructure ([0, 0, 0] : List Int) GRAY DARK_GRAY) [5, 6]
        (some RED) (some BLUE) none none none none none).2 = none
    ∧ dictGet ((highlight_containers (mkStructure ([0, 0, 0] : List Int) GRAY DARK_GRAY)
        [5, 6] (some RED) (some BLUE) none none none none none).1.containersColors) 5
      = none := by
  decide

/-- C3 amended: for every successful highlightContainers or setPointers call, the
resulting highlight map contains an entry for every distinct index value of the input
list that is either the sole index of a 1-index call (written unconditionally, even
out of range) or is strictly below the current slot count; 2- and 3-index calls write
no entry for indices at or beyond the slot count. -/
theorem c3_amended_resolver_domain (s : LCS Int) (idxList : List Nat) (pos : Nat)
    (hpos : pos = 0 ∨ pos = 1) (c1 c2 c3 : Color)
    (o1 o2 o3 o123 o12 o13 o23 : Option Color) (v : Nat) (hv : v ∈ idxList)
    (harity : 1 ≤ idxList.length ∧ idxList.length ≤ 3)
    (hrange : idxList.length = 1 ∨ v < s.slotFills.length) :
    (dictGet ((highlight_containers s idxList o1 o2 o3 o123 o12 o13 o23).1.containersColors)
        v).isSome = true
    ∧ (dictGet (if pos = 0 then (pointers s idxList pos c1 c2 c3).1.topPointersColors
          else (pointers s idxList pos c1 c2 c3).1.bottomPointersColors) v).isSome = true := by
  obtain _ | ⟨i, _ | ⟨j, _ | ⟨k, _ | ⟨m, rest⟩⟩⟩⟩ := idxList
  · simp at harity
  · have hvi : v = i := by simpa using hv
    subst hvi
    constructor
    · rw [highlight_containers_map_1, dictGet_dictSet]
      simp
    · rcases hpos with h | h <;> subst h
      · rw [if_pos rfl, pointers_top_map_1, dictGet_dictSet]
        simp
      · rw [if_neg (by decide), pointers_bot_map_1, dictGet_dictSet]
        simp
  · have hn : v < s.slotFills.length := by
      rcases hrange with h | h
      · simp at h
      · exact h
    have hvor : v = i ∨ v = j := by simpa using hv
    constructor
    · rw [highlight_containers_map_2, dictGet_fillRange, if_pos hn]
      unfold resolve2C
      rcases hvor with h | h <;> subst h <;> split_ifs <;> first | rfl | omega
    · rcases hpos with h | h <;> subst h
      · rw [if_pos rfl, pointers_top_map_2, dictGet_fillRange, if_pos hn]
        unfold resolve2P
        rcases hvor with h | h <;> subst h <;> split_ifs <;> first | rfl | omega
      · rw [if_neg (by decide), pointers_bot_map_2, dictGet_fillRange, if_pos hn]
        unfold resolve2P
        rcases hvor with h | h <;> subst h <;> split_ifs <;> first | rfl | omega
  · have hn : v < s.slotFills.length := by
      rcases hrange with h | h
      · simp at h
      · exact h
    have hvor : v = i ∨ v = j ∨ v = k := by simpa using hv
    constructor
    · rw [highlight_containers_map_3, dictGet_fillRange, if_pos hn]
      unfold resolve3C
      rcases hvor with h | h | h <;> subst h <;> split_ifs <;> first | rfl | omega
    · rcases hpos with h | h <;> subst h
      · rw [if_pos rfl, pointers_top_map_3, dictGet_fillRange, if_pos hn]
        unfold resolve3P
        rcases hvor with h | h | h <;> subst h <;> split_ifs <;> first | rfl | omega
      · rw [if_neg (by decide), pointers_bot_map_3, dictGet_fillRange, if_pos hn]
        unfold resolve3P
        rcases hvor with h | h | h <;> subst h <;> split_ifs <;> first | rfl | omega
  · exfalso
    simp only [List.length_cons, List.length_nil] at harity
    omega

/-- Witness for C3 amended: an in-range index of a 2-index call gets an entry. -/
theorem c3_amended_resolver_domain_witness :
    (dictGet ((highlight_containers (mkStructure ([0, 0, 0] : List Int) GRAY DARK_GRAY)
        [1, 2] (some RED) (some BLUE) none none none none none).1.containersColors)
        1).isSome = true := by
  have h :=
    (c3_amended_resolver_domain (mkStructure ([0, 0, 0] : List Int) GRAY DARK_GRAY)
      [1, 2] 0 (Or.inl rfl) RED BLUE GREEN (some RED) (some BLUE) none none none none none
      1 (by decide) (by decide) (by decide)).1
  exact h

theorem pointers_other_side (s : LCS Int) (idxList : List Nat) (c1 c2 c3 : Color) :
    (pointers s idxList 0 c1 c2 c3).1.bottomPointersColors = s.bottomPointersColors
    ∧ (pointers s idxList 1 c1 c2 c3).1.topPointersColors = s.topPointersColors := by
  constructor <;>
    · unfold pointers
      by_cases ha : ¬(1 ≤ idxList.length ∧ idxList.length ≤ 3)
      · simp [ha]
      · rw [if_neg ha, if_neg (by decide)]
        by_cases hed : s.data.isEmpty <;> simp [hed, apply_pointers_colors_core]

theorem pointers_on_value_other_side (s : LCS Int) (val : Int) (oc : Option Color) :
    (pointers_on_value s val 0 oc).1.bottomPointersColors = s.bottomPointersColors
    ∧ (pointers_on_value s val 1 oc).1.topPointersColors = s.topPointersColors := by
  constructor <;>
    · unfold pointers_on_value
      rw [if_neg (by decide)]
      by_cases hed : s.data.isEmpty <;> simp [hed, apply_pointers_colors_core]

/-- C8: value-based marking produces an entry exactly for the indices whose value
equals the query, each mapped to the given color (middle-marker form for the pointer
variant), with no collision logic; empty data yields an empty map and is not an
error; on data [0,5,0,5,0] querying 0 with color P gives exactly the entries at
0, 2, 4, and a subsequent query of 9 gives the empty map. -/
theorem c8_value_based_marking (s : LCS Int) (val : Int) (c : Color) (p : Nat)
    (fill bg P : Color) :
    dictGet ((highlight_containers_with_value s val (some c)).containersColors) p =
      (if s.data.get? p = some val then some c else none)
    ∧ ((pointers_on_value s val 0 (some c)).2 = none
       ∧ dictGet ((pointers_on_value s val 0 (some c)).1.topPointersColors) p =
          (if s.data.get? p = some val then some (s.bgColor, c, s.bgColor) else none))
    ∧ (s.data = [] → (highlight_containers_with_value s val (some c)).containersColors = [])
    ∧ (highlight_containers_with_value (mkStructure ([0, 5, 0, 5, 0] : List Int) fill bg) 0
        (some P)).containersColors = [(0, P), (2, P), (4, P)]
    ∧ (highlight_containers_with_value
        (highlight_containers_with_value (mkStructure ([0, 5, 0, 5, 0] : List Int) fill bg) 0
          (some P)) 9 (some P)).containersColors = [] := by
  refine ⟨?_, ⟨(pointers_on_value_top_map s val (some c)).1, ?_⟩, ?_, ?_, ?_⟩
  · rw [highlight_containers_with_value_map]
    by_cases hed : s.data.isEmpty
    · have hnil : s.data = [] := List.isEmpty_iff.mp hed
      simp [hed, hnil, dictGet]
    · simp [hed, dictGet_fillOnValue]
  · rw [(pointers_on_value_top_map s val (some c)).2]
    by_cases hed : s.data.isEmpty
    · have hnil : s.data = [] := List.isEmpty_iff.mp hed
      simp [hed, hnil, dictGet]
    · simp [hed, dictGet_fillOnValue]
  · intro h
    rw [highlight_containers_with_value_map]
    simp [h]
  · rw [highlight_containers_with_value_map]
    rfl
  · have hd :=
      (highlight_containers_with_value_frame
        (mkStructure ([0, 5, 0, 5, 0] : List Int) fill bg) 0 (some P)).1
    rw [highlight_containers_with_value_map, hd]
    rfl

/-- Witness for C8: on [0,5,0,5,0], index 2 holds value 0 and gets the query color. -/
theorem c8_value_based_marking_witness :
    dictGet ((highlight_containers_with_value
        (mkStructure ([0, 5, 0, 5, 0] : List Int) GRAY DARK_GRAY) 0
        (some 9)).containersColors) 2 = some 9 := by
  have h :=
    (c8_value_based_marking (mkStructure ([0, 5, 0, 5, 0] : List Int) GRAY DARK_GRAY) 0 9 2
      GRAY DARK_GRAY 9).1
  rw [h]
  decide

/-- C9: every successful highlight-setting call wholesale-replaces the one map it
targets (the resulting targeted map is independent of that map's previous contents,
so no earlier entry survives) and leaves the other two maps of the store unchanged;
stated for pointers on both sides, highlight_containers, pointers_on_value on both
sides, and highlight_containers_with_value. -/
theorem c9_replace_never_merge (s : LCS Int) (m : PyDict PTriple) (mc : PyDict Color)
    (idxList : List Nat) (harity : 1 ≤ idxList.length ∧ idxList.length ≤ 3)
    (c1 c2 c3 : Color) (o1 o2 o3 o123 o12 o13 o23 : Option Color) (val : Int)
    (oc : Option Color) :
    ((pointers s idxList 0 c1 c2 c3).1.bottomPointersColors = s.bottomPointersColors
     ∧ (pointers s idxList 0 c1 c2 c3).1.containersColors = s.containersColors
     ∧ (pointers { s with topPointersColors := m } idxList 0 c1 c2 c3).1.topPointersColors
         = (pointers s idxList 0 c1 c2 c3).1.topPointersColors)
    ∧ ((pointers s idxList 1 c1 c2 c3).1.topPointersColors = s.topPointersColors
     ∧ (pointers s idxList 1 c1 c2 c3).1.containersColors = s.containersColors
     ∧ (pointers { s with bottomPointersColors := m } idxList 1 c1 c2 c3).1.bottomPointersColors
         = (pointers s idxList 1 c1 c2 c3).1.bottomPointersColors)
    ∧ ((highlight_containers s idxList o1 o2 o3 o123 o12 o13 o23).1.topPointersColors
         = s.topPointersColors
     ∧ (highlight_containers s idxList o1 o2 o3 o123 o12 o13 o23).1.bottomPointersColors
         = s.bottomPointersColors
     ∧ (highlight_containers { s with containersColors := mc } idxList o1 o2 o3 o123 o12
           o13 o23).1.containersColors
         = (highlight_containers s idxList o1 o2 o3 o123 o12 o13 o23).1.containersColors)
    ∧ ((pointers_on_value s val 0 oc).1.bottomPointersColors = s.bottomPointersColors
     ∧ (pointers_on_value s val 0 oc).1.containersColors = s.containersColors
     ∧ (pointers_on_value { s with topPointersColors := m } val 0 oc).1.topPointersColors
         = (pointers_on_value s val 0 oc).1.topPointersColors)
    ∧ ((pointers_on_value s val 1 oc).1.topPointersColors = s.topPointersColors
     ∧ (pointers_on_value s val 1 oc).1.containersColors = s.containersColors
     ∧ (pointers_on_value { s with bottomPointersColors := m } val 1 oc).1.bottomPointersColors
         = (pointers_on_value s val 1 oc).1.bottomPointersColors)
    ∧ ((highlight_containers_with_value s val oc).topPointersColors = s.topPointersColors
     ∧ (highlight_containers_with_value s val oc).bottomPointersColors
         = s.bottomPointersColors
     ∧ (highlight_containers_with_value { s with containersColors := mc } val
           oc).containersColors
         = (highlight_containers_with_value s val oc).containersColors) := by
  refine ⟨⟨(pointers_other_side s idxList c1 c2 c3).1,
            (pointers_frame s idxList 0 c1 c2 c3).2.2.2.1, ?_⟩,
          ⟨(pointers_other_side s idxList c1 c2 c3).2,
            (pointers_frame s idxList 1 c1 c2 c3).2.2.2.1, ?_⟩,
          ⟨(highlight_containers_frame s idxList o1 o2 o3 o123 o12 o13 o23).2.2.2.1,
            (highlight_containers_frame s idxList o1 o2 o3 o123 o12 o13 o23).2.2.2.2.1, ?_⟩,
          ⟨(pointers_on_value_other_side s val oc).1,
            (pointers_on_value_frame s val 0 oc).2.2, ?_⟩,
          ⟨(pointers_on_value_other_side s val oc).2,
            (pointers_on_value_frame s val 1 oc).2.2, ?_⟩,
          ⟨(highlight_containers_with_value_frame s val oc).2.2.2.2.1,
            (highlight_containers_with_value_frame s val oc).2.2.2.2.2, ?_⟩⟩
  · obtain _ | ⟨i, _ | ⟨j, _ | ⟨k, _ | ⟨w, rest⟩⟩⟩⟩ := idxList
    · simp at harity
    · rw [pointers_top_map_1, pointers_top_map_1]
    · rw [pointers_top_map_2, pointers_top_map_2]
    · rw [pointers_top_map_3, pointers_top_map_3]
    · exfalso
      simp only [List.length_cons, List.length_nil] at harity
      omega
  · obtain _ | ⟨i, _ | ⟨j, _ | ⟨k, _ | ⟨w, rest⟩⟩⟩⟩ := idxList
    · simp at harity
    · rw [pointers_bot_map_1, pointers_bot_map_1]
    · rw [pointers_bot_map_2, pointers_bot_map_2]
    · rw [pointers_bot_map_3, pointers_bot_map_3]
    · exfalso
      simp only [List.length_cons, List.length_nil] at harity
      omega
  · obtain _ | ⟨i, _ | ⟨j, _ | ⟨k, _ | ⟨w, rest⟩⟩⟩⟩ := idxList
    · simp at harity
    · rw [highlight_containers_map_1, highlight_containers_map_1]
    · rw [highlight_containers_map_2, highlight_containers_map_2]
    · rw [highlight_containers_map_3, highlight_containers_map_3]
    · exfalso
      simp only [List.length_cons, List.length_nil] at harity
      omega
  · rw [(pointers_on_value_top_map _ val oc).2, (pointers_on_value_top_map s val oc).2]
  · rw [(pointers_on_value_bot_map _ val oc).2, (pointers_on_value_bot_map s val oc).2]
  · rw [highlight_containers_with_value_map, highlight_containers_with_value_map]

/-- Witness for C9 on a concrete 2-slot array with a polluted previous map. -/
theorem c9_replace_never_merge_witness :
    (pointers (mkStructure [(1 : Int), 2] GRAY DARK_GRAY) [0] 0 RED BLUE GREEN).1.bottomPointersColors
        = (mkStructure [(1 : Int), 2] GRAY DARK_GRAY).bottomPointersColors
    ∧ (pointers { mkStructure [(1 : Int), 2] GRAY DARK_GRAY with
          topPointersColors := [(7, (WHITE, WHITE, WHITE))] } [0] 0 RED BLUE GREEN).1.topPointersColors
        = (pointers (mkStructure [(1 : Int), 2] GRAY DARK_GRAY) [0] 0 RED BLUE GREEN).1.topPointersColors := by
  have h := c9_replace_never_merge (mkStructure [(1 : Int), 2] GRAY DARK_GRAY)
    [(7, (WHITE, WHITE, WHITE))] [] [0] (by decide) RED BLUE GREEN
    none none none none none none none 0 none
  exact ⟨h.1.1, h.1.2.2⟩

/-- C1: the repaint pass never deletes highlight-map entries, and entries at or
beyond the slot count stay dormant: highlighting index 5 on a length-6 array, then
update_value to length 2, keeps the index-5 entry in the store while painting only
the two new slots with the default fill; a further update_value back to length 6 with
no intervening highlight call repaints slot 5 with the originally stored color. -/
theorem c1_dormant_persistence (bg fill C : Color) (d6 d2 d6b : List Int)
    (h6 : d6.length = 6) (h2 : d2.length = 2) (h6b : d6b.length = 6) :
    (∀ t : LCS Int, (apply_containers_colors t).containersColors = t.containersColors)
    ∧ dictGet ((highlight_containers (mkStructure d6 fill bg) [5] (some C) none none none
          none none none).1.containersColors) 5 = some C
    ∧ (update_value ((highlight_containers (mkStructure d6 fill bg) [5] (some C) none none
          none none none none).1) d2).containersColors
        = ((highlight_containers (mkStructure d6 fill bg) [5] (some C) none none none none
          none none).1).containersColors
    ∧ (update_value ((highlight_containers (mkStructure d6 fill bg) [5] (some C) none none
          none none none none).1) d2).slotFills = [DARK_GRAY, DARK_GRAY]
    ∧ (update_value (update_value ((highlight_containers (mkStructure d6 fill bg) [5]
          (some C) none none none none none none).1) d2) d6b).containersColors
        = ((highlight_containers (mkStructure d6 fill bg) [5] (some C) none none none none
          none none).1).containersColors
    ∧ (update_value (update_value ((highlight_containers (mkStructure d6 fill bg) [5]
          (some C) none none none none none none).1) d2) d6b).slotFills.get? 5
        = some C := by
  have hmap : ((highlight_containers (mkStructure d6 fill bg) [5] (some C) none none none
      none none none).1).containersColors = dictSet [] 5 C := by
    rw [highlight_containers_map_1]
    rfl
  have hdata : ((highlight_containers (mkStructure d6 fill bg) [5] (some C) none none none
      none none none).1).data = d6 :=
    (highlight_containers_frame (mkStructure d6 fill bg) [5] (some C) none none none none
      none none).1
  have hguard2 : ¬(((highlight_containers (mkStructure d6 fill bg) [5] (some C) none none
      none none none none).1).data.isEmpty ∧ (d2.isEmpty : Prop)) := by
    rw [hdata]
    rw [isEmpty_false_of_length d6 5 h6]
    simp
  have hs2 := update_value_result _ d2 hguard2
  have hs2data : (update_value ((highlight_containers (mkStructure d6 fill bg) [5] (some C)
      none none none none none none).1) d2).data = d2 := by
    rw [hs2]
  have hguard3 : ¬((update_value ((highlight_containers (mkStructure d6 fill bg) [5]
      (some C) none none none none none none).1) d2).data.isEmpty ∧ (d6b.isEmpty : Prop)) := by
    rw [hs2data]
    rw [isEmpty_false_of_length d2 1 h2]
    simp
  have hs3 := update_value_result _ d6b hguard3
  have hs2map : (update_value ((highlight_containers (mkStructure d6 fill bg) [5] (some C)
      none none none none none none).1) d2).containersColors = dictSet [] 5 C := by
    rw [hs2]
    exact hmap
  refine ⟨fun t => rfl, ?_, ?_, ?_, ?_, ?_⟩
  · rw [hmap, dictGet_dictSet]
    simp
  · rw [hs2]
  · rw [hs2]
    show (List.range d2.length).map _ = _
    rw [h2, hmap]
    rw [show List.range 2 = [0, 1] by rfl]
    simp [dictGet, dictSet, isEmpty_false_of_length d2 1 h2]
  · rw [hs3, hs2]
  · rw [hs3]
    show ((List.range d6b.length).map _).get? 5 = _
    rw [h6b, hs2map, List.get?_eq_getElem?]
    rw [show List.range 6 = [0, 1, 2, 3, 4, 5] by rfl]
    simp [dictGet, dictSet, isEmpty_false_of_length d6b 5 h6b]

/-- Witness for C1: the full shrink-then-regrow chain on concrete data. -/
theorem c1_dormant_persistence_witness :
    (update_value (update_value ((highlight_containers
        (mkStructure ([0, 1, 2, 3, 4, 5] : List Int) GRAY DARK_GRAY) [5] (some 42) none
        none none none none none).1) [7, 8]) [9, 10, 11, 12, 13, 14]).slotFills.get? 5
      = some 42 :=
  (c1_dormant_persistence DARK_GRAY GRAY 42 [0, 1, 2, 3, 4, 5] [7, 8]
    [9, 10, 11, 12, 13, 14] rfl rfl rfl).2.2.2.2.2

/- ------------------------------------------------------------------ -/
/- Reference-level model of the snapshot / transfer functions.         -/
/- The source's _save_highlights_states returns a dict holding the     -/
/- three map objects themselves, and _preserve_highlights_states       -/
/- assigns those same objects to the successor attributes, so object   -/
/- identity matters; it is modelled with an explicit heap of dicts.    -/
/- ------------------------------------------------------------------ -/

/-- A Python object reference: an index into a heap of dict objects. -/
abbrev Ref := Nat

/-- A heap of Python dict objects of one value type. -/
abbrev DictHeap (β : Type) := List (PyDict β)

/-- Dereference: the dict object a reference points to. -/
def deref {β : Type} (h : DictHeap β) (r : Ref) : PyDict β := h.getD r []

/-- In-place dict mutation d[k] = v performed through a reference. -/
def heapWrite {β : Type} (h : DictHeap β) (r : Ref) (k : Nat) (v : β) : DictHeap β :=
  h.set r (dictSet (deref h r) k v)

/-- Allocate a fresh empty dict and fill it with the given entries, as every
highlight-setting call does before rebinding its map attribute. -/
def rebindFill {β : Type} (h : DictHeap β) (entries : PyDict β) : DictHeap β × Ref :=
  let h1 := h ++ [[]]
  let r := h.length
  (entries.foldl (fun hh pr => heapWrite hh r pr.1 pr.2) h1, r)

/-- The three dict references held by one structure instance (container map,
top pointer map, bottom pointer map). -/
structure RefHighlights where
  containersRef : Ref
  topRef : Ref
  botRef : Ref
  deriving DecidableEq

/-- _save_highlights_states at the reference level: the returned status holds
the three dict objects themselves, i.e. the same three references. -/
def save_highlights_states_ref (s : RefHighlights) : RefHighlights :=
  { containersRef := s.containersRef, topRef := s.topRef, botRef := s.botRef }

/-- _preserve_highlights_states at the reference level: the successor
attributes are assigned the references stored in the status (the repaint it
also performs touches no dict object). -/
def preserve_highlights_states_ref (newGroup : RefHighlights) (status : RefHighlights) :
    RefHighlights :=
  { newGroup with
    containersRef := status.containersRef
    topRef := status.topRef
    botRef := status.botRef }

/-- highlight_containers at the reference level, map skeleton only: rebind the
container attribute to a freshly allocated dict filled with the resolved
entries. -/
def highlight_containers_ref (h : DictHeap Color) (s : RefHighlights)
    (entries : PyDict Color) : DictHeap Color × RefHighlights :=
  let p := rebindFill h entries
  (p.1, { s with containersRef := p.2 })

/-- pointers (and pointers_on_value) at the reference level, map skeleton only:
rebind the selected pointer attribute to a freshly allocated filled dict. -/
def pointers_ref (h : DictHeap PTriple) (s : RefHighlights) (pos : Nat)
    (entries : PyDict PTriple) : DictHeap PTriple × RefHighlights :=
  let p := rebindFill h entries
  (p.1, if pos = 0 then { s with topRef := p.2 } else { s with botRef := p.2 })

theorem getD_set_ne {γ : Type} (l : List γ) (i j : Nat) (a dflt : γ) (hij : i ≠ j) :
    (l.set i a).getD j dflt = l.getD j dflt := by
  induction l generalizing i j with
  | nil => simp [List.set]
  | cons hd tl ih =>
    cases i with
    | zero =>
      cases j with
      | zero => exact absurd rfl hij
      | succ j2 => simp [List.set]
    | succ i2 =>
      cases j with
      | zero => simp [List.set]
      | succ j2 =>
        simp only [List.set, List.getD_cons_succ]
        exact ih i2 j2 (fun hh => hij (by rw [hh]))

theorem getD_append_left {γ : Type} (l l2 : List γ) (n : Nat) (dflt : γ)
    (h : n < l.length) : (l ++ l2).getD n dflt = l.getD n dflt := by
  induction l generalizing n with
  | nil => simp at h
  | cons hd tl ih =>
    cases n with
    | zero => simp
    | succ n2 =>
      simp only [List.cons_append, List.getD_cons_succ]
      exact ih n2 (by simpa using h)

theorem deref_rebindFill {β : Type} (h : DictHeap β) (entries : PyDict β) (r : Ref)
    (hr : r < h.length) :
    deref (rebindFill h entries).1 r = deref h r := by
  have hne : h.length ≠ r := ne_of_gt hr
  have aux : ∀ (es : PyDict β) (hh : DictHeap β),
      deref (es.foldl (fun hh2 pr => heapWrite hh2 h.length pr.1 pr.2) hh) r = deref hh r := by
    intro es
    induction es with
    | nil => intro hh; rfl
    | cons e tl ih =>
      intro hh
      rw [List.foldl_cons, ih]
      unfold heapWrite deref
      exact getD_set_ne hh h.length r _ _ hne
  unfold rebindFill
  rw [aux]
  unfold deref
  exact getD_append_left h [[]] r [] hr

/-- C2 counterexample: after a transfer the successor holds the very same
container-map reference as the old instance (the snapshot is not a deep copy), and
an in-place dict write through the old reference changes the successor view. -/
theorem c2_counterexample :
    (preserve_highlights_states_ref (⟨1, 1, 1⟩ : RefHighlights)
        (save_highlights_states_ref (⟨0, 0, 0⟩ : RefHighlights))).containersRef
      = (⟨0, 0, 0⟩ : RefHighlights).containersRef
    ∧ deref (heapWrite ([[(0, RED)], []] : DictHeap Color)
          (⟨0, 0, 0⟩ : RefHighlights).containersRef 0 BLUE)
        (preserve_highlights_states_ref (⟨1, 1, 1⟩ : RefHighlights)
          (save_highlights_states_ref (⟨0, 0, 0⟩ : RefHighlights))).containersRef
      ≠ deref ([[(0, RED)], []] : DictHeap Color)
          (preserve_highlights_states_ref (⟨1, 1, 1⟩ : RefHighlights)
            (save_highlights_states_ref (⟨0, 0, 0⟩ : RefHighlights))).containersRef := by
  decide

/-- C2 amended: the snapshot returns references to the three map objects themselves
and the transfer installs those same references, so the successor store is deep-equal
to the old store at snapshot time; and because every later highlight-setting call on
the old instance rebinds its attribute to a freshly allocated dict instead of
mutating the shared one, no later repository highlight call on the old instance
changes the successor maps. -/
theorem c2_amended_shared_reference_transfer (hC : DictHeap Color) (hP : DictHeap PTriple)
    (old succ : RefHighlights)
    (hc : old.containersRef < hC.length) (ht : old.topRef < hP.length)
    (hb : old.botRef < hP.length) :
    (deref hC (preserve_highlights_states_ref succ
          (save_highlights_states_ref old)).containersRef
        = deref hC old.containersRef
     ∧ deref hP (preserve_highlights_states_ref succ
          (save_highlights_states_ref old)).topRef
        = deref hP old.topRef
     ∧ deref hP (preserve_highlights_states_ref succ
          (save_highlights_states_ref old)).botRef
        = deref hP old.botRef)
    ∧ (∀ entries : PyDict Color,
        deref (highlight_containers_ref hC old entries).1
            (preserve_highlights_states_ref succ
              (save_highlights_states_ref old)).containersRef
          = deref hC (preserve_highlights_states_ref succ
              (save_highlights_states_ref old)).containersRef)
    ∧ (∀ (pos : Nat) (entries : PyDict PTriple),
        deref (pointers_ref hP old pos entries).1
            (preserve_highlights_states_ref succ
              (save_highlights_states_ref old)).topRef
          = deref hP (preserve_highlights_states_ref succ
              (save_highlights_states_ref old)).topRef
        ∧ deref (pointers_ref hP old pos entries).1
            (preserve_highlights_states_ref succ
              (save_highlights_states_ref old)).botRef
          = deref hP (preserve_highlights_states_ref succ
              (save_highlights_states_ref old)).botRef) :=
  ⟨⟨rfl, rfl, rfl⟩,
   fun entries => deref_rebindFill hC entries old.containersRef hc,
   fun _ entries =>
     ⟨deref_rebindFill hP entries old.topRef ht,
      deref_rebindFill hP entries old.botRef hb⟩⟩

/-- Witness for C2 amended on a concrete one-dict heap. -/
theorem c2_amended_shared_reference_transfer_witness :
    deref ([[(0, RED)], []] : DictHeap Color)
        (preserve_highlights_states_ref (⟨1, 1, 1⟩ : RefHighlights)
          (save_highlights_states_ref (⟨0, 0, 0⟩ : RefHighlights))).containersRef
      = deref ([[(0, RED)], []] : DictHeap Color) (⟨0, 0, 0⟩ : RefHighlights).containersRef
    ∧ deref (highlight_containers_ref ([[(0, RED)], []] : DictHeap Color)
          (⟨0, 0, 0⟩ : RefHighlights) [(1, BLUE)]).1
        (preserve_highlights_states_ref (⟨1, 1, 1⟩ : RefHighlights)
          (save_highlights_states_ref (⟨0, 0, 0⟩ : RefHighlights))).containersRef
      = deref ([[(0, RED)], []] : DictHeap Color)
        (preserve_highlights_states_ref (⟨1, 1, 1⟩ : RefHighlights)
          (save_highlights_states_ref (⟨0, 0, 0⟩ : RefHighlights))).containersRef := by
  have h := c2_amended_shared_reference_transfer ([[(0, RED)], []] : DictHeap Color)
    ([[]] : DictHeap PTriple) (⟨0, 0, 0⟩ : RefHighlights) (⟨1, 1, 1⟩ : RefHighlights)
    (by decide) (by decide) (by decide)
  exact ⟨h.1.1, h.2.1 [(1, BLUE)]⟩

end Algomanim
